import Mathlib

/-!
Shallow embedding of `src/main.py` of the `ouch` repository: a minimal
FastAPI service that logs a body-pain event together with current weather
data fetched from the OpenWeatherMap API, persisting each event into a
one-table SQLite database.

JSON values are modelled by `JValue`, Python exceptions by `PyErr`,
Python floats by `Rat` (only truthiness and equality of configured
coordinates matter to the program's control flow), the network by an
oracle assigning each attempt number its outcome, and `random.uniform`
by an oracle stream of jitter values.
-/

/-- A JSON value, as produced by `response.json()`. Python `None` and JSON
`null` are both modelled by `JValue.null`. -/
inductive JValue : Type
  | null : JValue
  | bool : Bool → JValue
  | num : Rat → JValue
  | str : String → JValue
  | arr : List JValue → JValue
  | obj : List (String × JValue) → JValue

/-- The Python exceptions that `main.py` can raise or meet. -/
inductive PyErr : Type
  | valueError : String → PyErr
  | runtimeError : String → PyErr
  | keyError : String → PyErr
  | attributeError : String → PyErr
  | indexError : String → PyErr
  | typeError : String → PyErr
  | sqliteError : String → PyErr
deriving DecidableEq, Repr

/-- Python truthiness of a JSON value (`0`, `0.0`, `""`, `[]`, `\x7b\x7d`,
`None` and `False` are falsy). -/
def JValue.truthy : JValue → Bool
  | .null => false
  | .bool b => b
  | .num q => if q = 0 then false else true
  | .str s => if s = "" then false else true
  | .arr xs => if xs.isEmpty then false else true
  | .obj fs => if fs.isEmpty then false else true

/-- Whether a value is Python `None` (`x is None`). -/
def JValue.isNull : JValue → Bool
  | .null => true
  | _ => false

/-- Python `d.get(key, default)`: defined on dicts, `AttributeError`
otherwise (e.g. when the JSON body was not an object). -/
def JValue.pyGetD : JValue → String → JValue → Except PyErr JValue
  | .obj fields, k, d => .ok ((fields.lookup k).getD d)
  | _, _, _ => .error (.attributeError "object has no attribute get")

/-- Python `d.get(key)`: `None` when the key is absent. -/
def JValue.pyGet (v : JValue) (k : String) : Except PyErr JValue :=
  v.pyGetD k .null

/-- Python `xs[0]` on the modelled value: head of a nonempty list,
`IndexError` on an empty list, `TypeError` elsewhere. -/
def JValue.pyIndexZero : JValue → Except PyErr JValue
  | .arr [] => .error (.indexError "list index out of range")
  | .arr (x :: _) => .ok x
  | _ => .error (.typeError "object is not subscriptable")

/-- Outcome of one HTTP GET attempt inside `get_weather_data`: either a
response with a status code and parsed JSON body, or a transport failure
(`httpx.RequestError`) carrying its message. -/
inductive AttemptOutcome : Type
  | success : Nat → JValue → AttemptOutcome
  | requestError : String → AttemptOutcome

/-- Whether an attempt outcome is an `httpx.RequestError`. -/
def AttemptOutcome.isRequestError : AttemptOutcome → Bool
  | .requestError _ => true
  | _ => false

/-- How a run of `get_weather_data`'s retry loop ends: a returned JSON
body, a raised exception, or falling through the `for` loop (in which case
the Python function would implicitly return `None`). -/
inductive FetchOutcome : Type
  | ok : JValue → FetchOutcome
  | err : PyErr → FetchOutcome
  | fellThrough : FetchOutcome

/-- Whether a fetch outcome is a raised `RuntimeError`. -/
def FetchOutcome.isRuntimeErr : FetchOutcome → Bool
  | .err (.runtimeError _) => true
  | _ => false

/-- The observable result of a run of `get_weather_data`: its outcome, the
number of GET attempts performed, and the list of sleep durations (in
seconds) passed to `asyncio.sleep`, in order. -/
structure FetchRun : Type where
  outcome : FetchOutcome
  attempts : Nat
  sleeps : List Rat

/-- `retries = 5` in `get_weather_data`. -/
def retries : Nat := 5

/-- The `for attempt in range(1, retries + 1)` loop of `get_weather_data`.
`remaining` counts the loop iterations still available (the loop is
entered with `remaining = retries`, `attempt = 1`, `backoff = 1`);
`outcomes n` is the network's answer to attempt `n`, `jitter n` the value
`random.uniform(0, 0.5)` drawn on attempt `n`. On a response the code
returns the body for status 200 and raises `RuntimeError` otherwise
(specific message for 429); on `httpx.RequestError` it raises
`RuntimeError` when `attempt == retries` and otherwise sleeps
`backoff + jitter` and doubles `backoff`. -/
def weatherLoop (outcomes : Nat → AttemptOutcome) (jitter : Nat → Rat) :
    Nat → Nat → Rat → List Rat → FetchRun
  | 0, attempt, _, sleeps => ⟨.fellThrough, attempt - 1, sleeps⟩
  | remaining + 1, attempt, backoff, sleeps =>
    match outcomes attempt with
    | .success status body =>
      if status = 200 then
        ⟨.ok body, attempt, sleeps⟩
      else if status = 429 then
        ⟨.err (.runtimeError "Too many requests - API rate limit reached. Please try again later."), attempt, sleeps⟩
      else
        ⟨.err (.runtimeError "Error fetching weather data from the API."), attempt, sleeps⟩
    | .requestError msg =>
      if attempt = retries then
        ⟨.err (.runtimeError ("Request failed after 5 retries: " ++ msg)), attempt, sleeps⟩
      else
        weatherLoop outcomes jitter remaining (attempt + 1) (backoff * 2)
          (sleeps ++ [backoff + jitter attempt])

/-- `get_weather_data(api_key, lat, lon, exclude)`: raises `ValueError`
when the api key is falsy, otherwise runs the retry loop with
`retries = 5` and initial `backoff = 1`. `lat`, `lon` and `exclude` only
feed the query string and do not affect control flow. -/
def get_weather_data (api_key : String) (lat lon : Rat)
    (outcomes : Nat → AttemptOutcome) (jitter : Nat → Rat)
    (exclude : String := "minutely,hourly,daily,alerts") : FetchRun :=
  if api_key = "" then
    ⟨.err (.valueError "API key is required."), 0, []⟩
  else
    weatherLoop outcomes jitter retries 1 1 []

/-- The pydantic `Settings` of `main.py`: `OUCH_`-prefixed environment
configuration. `db_path` defaults to `"data/data.db"`. -/
structure Settings : Type where
  ow_api_key : String
  db_path : String := "data/data.db"
  lat : Rat
  lon : Rat

/-- The list `missing_keys` built by `validate_settings`: a field is
reported missing exactly when it is Python-falsy (`""` for the api key,
`0.0` for the coordinates). -/
def missing_keys (s : Settings) : List String :=
  (if s.ow_api_key = "" then ["ow_api_key"] else []) ++
    (if s.lat = 0 then ["lat"] else []) ++
      (if s.lon = 0 then ["lon"] else [])

/-- `validate_settings()`: raises `ValueError` naming the missing fields
when any of `ow_api_key`, `lat`, `lon` is falsy. -/
def validate_settings (s : Settings) : Except PyErr Unit :=
  if missing_keys s = [] then
    .ok ()
  else
    .error (.valueError
      ("Missing required environment variables: " ++
        String.intercalate ", " (missing_keys s)))

/-- One row of the `owie_logs` table, fields in the order of the
`CREATE TABLE` statement (the autoincrement `id` column is left to the
position of the row in the list). -/
structure Row : Type where
  weather_id : JValue
  weather_main : JValue
  weather_description : JValue
  date_time : JValue
  body_part : String
  humidity : JValue
  precipitation : JValue
  uv_index : JValue
  temperature : JValue
  pressure : JValue

/-- The SQLite database state: which tables exist, and the rows of
`owie_logs` in insertion order. -/
structure DB : Type where
  tables : List String
  owieRows : List Row

/-- `setup_database()`: `CREATE TABLE IF NOT EXISTS owie_logs (...)` — when
the table already exists the statement is a no-op, otherwise it creates
the (empty) table and touches nothing else. -/
def setup_database (db : DB) : DB :=
  if "owie_logs" ∈ db.tables then db
  else { db with tables := db.tables ++ ["owie_logs"] }

/-- `insert_owie_log(date_time, body_part, weather_data)`: one `INSERT`
into `owie_logs` taking its column values from the `weather_data` dict
(`KeyError` on a missing key, SQLite error when the table is absent). -/
def insert_owie_log (date_time : JValue) (body_part : String)
    (weather_data : List (String × JValue)) (db : DB) : Except PyErr DB :=
  if "owie_logs" ∈ db.tables then
    match weather_data.lookup "temperature", weather_data.lookup "pressure",
        weather_data.lookup "humidity", weather_data.lookup "precipitation",
        weather_data.lookup "uv_index", weather_data.lookup "weather_id",
        weather_data.lookup "weather_main",
        weather_data.lookup "weather_description" with
    | some t, some p, some h, some pr, some uv, some wid, some wmain, some wdesc =>
      .ok { db with owieRows := db.owieRows ++
        [{ weather_id := wid, weather_main := wmain,
           weather_description := wdesc, date_time := date_time,
           body_part := body_part, humidity := h, precipitation := pr,
           uv_index := uv, temperature := t, pressure := p }] }
    | _, _, _, _, _, _, _, _ => .error (.keyError "weather data key missing")
  else
    .error (.sqliteError "no such table: owie_logs")

/-- The local variables `log_owie` extracts from the fetched payload
(lines 191–200 of `main.py`). -/
structure Extracted : Type where
  humidity : JValue
  precipitation : JValue
  uv_index : JValue
  weather_id : JValue
  weather_main : JValue
  weather_description : JValue
  temperature : JValue
  pressure : JValue
  date_time : JValue

/-- The extraction chain of `log_owie`:
`current = weather_data.get("current", \x7b\x7d)`, then `humidity`,
`precipitation` (`rain["1h"] or snow["1h"]`, each defaulting to `0.0`),
`uvi`, the three fields of `weather[0]` (the list defaulting to
`[\x7b\x7d]`), `temp`, `pressure` and `dt`. -/
def extract_current (weather_data : JValue) : Except PyErr Extracted := do
  let current ← weather_data.pyGetD "current" (.obj [])
  let humidity ← current.pyGet "humidity"
  let rain ← current.pyGetD "rain" (.obj [])
  let rain1h ← rain.pyGetD "1h" (.num 0)
  let precipitation ←
    if rain1h.truthy then
      pure rain1h
    else do
      let snow ← current.pyGetD "snow" (.obj [])
      snow.pyGetD "1h" (.num 0)
  let uv_index ← current.pyGet "uvi"
  let wlist1 ← current.pyGetD "weather" (.arr [.obj []])
  let w1 ← wlist1.pyIndexZero
  let weather_id ← w1.pyGet "id"
  let wlist2 ← current.pyGetD "weather" (.arr [.obj []])
  let w2 ← wlist2.pyIndexZero
  let weather_main ← w2.pyGet "main"
  let wlist3 ← current.pyGetD "weather" (.arr [.obj []])
  let w3 ← wlist3.pyIndexZero
  let weather_description ← w3.pyGet "description"
  let temperature ← current.pyGet "temp"
  let pressure ← current.pyGet "pressure"
  let date_time ← current.pyGet "dt"
  pure { humidity, precipitation, uv_index, weather_id, weather_main,
         weather_description, temperature, pressure, date_time }

/-- Whether any of the eight values `log_owie` requires is `None`
(the `if ... is None` guard on line 201; `precipitation` is not among
them). -/
def missingRequired (ex : Extracted) : Bool :=
  ex.temperature.isNull || ex.pressure.isNull || ex.date_time.isNull ||
    ex.humidity.isNull || ex.uv_index.isNull || ex.weather_id.isNull ||
      ex.weather_main.isNull || ex.weather_description.isNull

/-- What a FastAPI handler of `main.py` returns: a JSON dict, or a
`(dict, status)` pair. -/
inductive HandlerReturn : Type
  | json : List (String × JValue) → HandlerReturn
  | jsonStatus : List (String × JValue) → Nat → HandlerReturn

/-- The row inserted for a successful owie request, as a function of the
extracted weather values and the `body_part` path parameter. -/
def logged_row (ex : Extracted) (bp : String) : Row :=
  { weather_id := ex.weather_id, weather_main := ex.weather_main,
    weather_description := ex.weather_description,
    date_time := ex.date_time, body_part := bp, humidity := ex.humidity,
    precipitation := ex.precipitation, uv_index := ex.uv_index,
    temperature := ex.temperature, pressure := ex.pressure }

/-- The dict `log_weather_data` built by `log_owie` before the insert. -/
def log_weather_data (ex : Extracted) : List (String × JValue) :=
  [("weather_id", ex.weather_id), ("weather_main", ex.weather_main),
   ("weather_description", ex.weather_description),
   ("temperature", ex.temperature), ("pressure", ex.pressure),
   ("humidity", ex.humidity), ("precipitation", ex.precipitation),
   ("uv_index", ex.uv_index)]

/-- `POST /owie/\x7bbody_part\x7d` — `log_owie(body_part)`. Returns the
handler's Python return value (or the exception it raises) together with
the database state after the request. The falsy-settings check returns a
400 body; then the weather fetch runs (its exceptions propagate); an
incomplete payload raises `RuntimeError` before any database work;
otherwise `setup_database` then `insert_owie_log` run and the success
dict is returned. -/
def log_owie (s : Settings) (body_part : String)
    (outcomes : Nat → AttemptOutcome) (jitter : Nat → Rat) (db : DB) :
    Except PyErr HandlerReturn × DB :=
  if s.ow_api_key = "" ∨ s.db_path = "" ∨ s.lat = 0 ∨ s.lon = 0 then
    (.ok (.jsonStatus [("error", .str "Missing required environment variables")] 400), db)
  else
    match (get_weather_data s.ow_api_key s.lat s.lon outcomes jitter).outcome with
    | .err e => (.error e, db)
    | .fellThrough => (.error (.attributeError "object has no attribute get"), db)
    | .ok weather_data =>
      match extract_current weather_data with
      | .error e => (.error e, db)
      | .ok ex =>
        if missingRequired ex then
          (.error (.runtimeError "Incomplete weather data received from the API."), db)
        else
          match insert_owie_log ex.date_time body_part (log_weather_data ex)
              (setup_database db) with
          | .error e => (.error e, setup_database db)
          | .ok db2 =>
            (.ok (.json
              [("message", .str "Logged owie details successfully"),
               ("body_part", .str body_part),
               ("temperature", ex.temperature),
               ("pressure", ex.pressure)]), db2)

/-- `GET /` — `home()`: returns `(\x7b"message": "Hello World"\x7d, 200)`. -/
def home : HandlerReturn :=
  .jsonStatus [("message", .str "Hello World")] 200

/-- An HTTP route registered on the FastAPI app. -/
structure Route : Type where
  method : String
  path : String
deriving DecidableEq, Repr

/-- The routes registered on `app`: the `@app.get("/")` decorator on
`home` and the `@app.post("/owie/\x7bbody_part\x7d")` decorator on
`log_owie`. -/
def app_routes : List Route :=
  [{ method := "GET", path := "/" },
   { method := "POST", path := "/owie/\x7bbody_part\x7d" }]

/-- The sleep durations of a run in which every attempt meets a
transport error: backoff starts at 1 and doubles after each sleep,
jitter is the value drawn on the failing attempt. -/
def expected_sleeps (j : Nat → Rat) : List Rat :=
  [1 + j 1, 2 + j 2, 4 + j 3, 8 + j 4]

/-- A network in which every attempt meets a transport error. -/
def allFail : Nat → AttemptOutcome := fun _ => .requestError "connection reset by peer"

/-- A jitter stream that always draws 0. -/
def zeroJitter : Nat → Rat := fun _ => 0

/-- A network failing twice at transport level, then answering 200. -/
def succeedAtThree : Nat → AttemptOutcome := fun n =>
  if n < 3 then .requestError "timeout" else .success 200 (.obj [("a", .num 1)])

/-- A network failing once at transport level, then answering 503. -/
def failThen503 : Nat → AttemptOutcome := fun n =>
  if n < 2 then .requestError "timeout" else .success 503 .null

/-- A complete weather payload. -/
def payloadFull : JValue := .obj [("current", .obj [
  ("dt", .num 1700000000), ("temp", .num 55), ("pressure", .num 1013),
  ("humidity", .num 80), ("uvi", .num 3), ("rain", .obj [("1h", .num 1)]),
  ("weather", .arr [.obj [("id", .num 500), ("main", .str "Rain"),
    ("description", .str "light rain")]])])]

/-- A network answering 200 with the complete payload at once. -/
def okFull : Nat → AttemptOutcome := fun _ => .success 200 payloadFull

/-- A payload whose `current` object carries only a humidity. -/
def payloadMissing : JValue := .obj [("current", .obj [("humidity", .num 50)])]

/-- A network answering 200 with the incomplete payload at once. -/
def okMissing : Nat → AttemptOutcome := fun _ => .success 200 payloadMissing

/-- The values extracted from `payloadFull`. -/
def exFull : Extracted :=
  { humidity := .num 80, precipitation := .num 1, uv_index := .num 3,
    weather_id := .num 500, weather_main := .str "Rain",
    weather_description := .str "light rain", temperature := .num 55,
    pressure := .num 1013, date_time := .num 1700000000 }

/-- The values extracted from `payloadMissing`. -/
def exMissing : Extracted :=
  { humidity := .num 50, precipitation := .num 0, uv_index := .null,
    weather_id := .null, weather_main := .null, weather_description := .null,
    temperature := .null, pressure := .null, date_time := .null }

/-- Fully configured settings. -/
def sFine : Settings := { ow_api_key := "k", lat := 40, lon := 74 }

/-- Settings whose latitude is exactly 0.0 (the equator). -/
def sLatZero : Settings := { ow_api_key := "k", lat := 0, lon := 74 }

/-- A fresh database: no tables, no rows. -/
def dbEmpty : DB := { tables := [], owieRows := [] }

/-- A database on which `setup_database` has already run. -/
def dbReady : DB := { tables := ["owie_logs"], owieRows := [] }

/-- The database state after one successful request for `"knee"` against a
fresh database. -/
def db2Knee : DB := { tables := ["owie_logs"], owieRows := [logged_row exFull "knee"] }

/-- The database state after one successful request for `"elbow"` against a
fresh database. -/
def db2Elbow : DB := { tables := ["owie_logs"], owieRows := [logged_row exFull "elbow"] }

lemma isRequestError_exists (a : AttemptOutcome) :
    a.isRequestError = true ↔ ∃ m, a = .requestError m := by
  cases a <;> simp [AttemptOutcome.isRequestError]

lemma weatherLoop_success (o : Nat → AttemptOutcome) (j : Nat → Rat)
    (remaining attempt : Nat) (b : Rat) (s : List Rat) (status : Nat)
    (body : JValue) (ho : o attempt = .success status body) :
    weatherLoop o j (remaining + 1) attempt b s =
      if status = 200 then
        ⟨.ok body, attempt, s⟩
      else if status = 429 then
        ⟨.err (.runtimeError "Too many requests - API rate limit reached. Please try again later."), attempt, s⟩
      else
        ⟨.err (.runtimeError "Error fetching weather data from the API."), attempt, s⟩ := by
  simp [weatherLoop, ho]

lemma weatherLoop_reqerr (o : Nat → AttemptOutcome) (j : Nat → Rat)
    (remaining attempt : Nat) (b : Rat) (s : List Rat) (m : String)
    (ho : o attempt = .requestError m) :
    weatherLoop o j (remaining + 1) attempt b s =
      if attempt = retries then
        ⟨.err (.runtimeError ("Request failed after 5 retries: " ++ m)), attempt, s⟩
      else
        weatherLoop o j remaining (attempt + 1) (b * 2)
          (s ++ [b + j attempt]) := by
  simp [weatherLoop, ho]

/-- Running the loop from its start while the first `k - 1` attempts meet
transport errors reaches attempt `k` with `backoff = 2 ^ (k - 1)` and the
first `k - 1` expected sleeps performed. -/
lemma weatherLoop_reach (o : Nat → AttemptOutcome) (j : Nat → Rat) (k : Nat)
    (h1 : 1 ≤ k) (h5 : k ≤ 5)
    (hf : ∀ i, 1 ≤ i → i < k → (o i).isRequestError = true) :
    weatherLoop o j retries 1 1 [] =
      weatherLoop o j (6 - k) k ((2 : Rat) ^ (k - 1))
        ((expected_sleeps j).take (k - 1)) := by
  induction k with
  | zero => omega
  | succ k ih =>
    rcases Nat.eq_zero_or_pos k with hk0 | hkpos
    · subst hk0
      norm_num [retries]
    · have hk4 : k ≤ 4 := by omega
      have step := ih hkpos (by omega) (fun i hi hik => hf i hi (by omega))
      rw [step]
      have h6k : 6 - k = (5 - k) + 1 := by omega
      rcases (isRequestError_exists (o k)).mp (hf k hkpos (by omega)) with ⟨m, hm⟩
      rw [h6k, weatherLoop_reqerr o j (5 - k) k _ _ m hm,
        if_neg (show ¬k = retries by simp only [retries]; omega)]
      have e1 : 5 - k = 6 - (k + 1) := by omega
      have e2 : (2 : Rat) ^ (k - 1) * 2 = 2 ^ (k + 1 - 1) := by
        have hk : k - 1 + 1 = k := by omega
        rw [← pow_succ, hk]
        norm_num
      have e3 : ((expected_sleeps j).take (k - 1)) ++ [(2 : Rat) ^ (k - 1) + j k] =
          (expected_sleeps j).take (k + 1 - 1) := by
        interval_cases k <;> norm_num [expected_sleeps]
      rw [e1, e2, e3]

/-- Every run of the loop, entered with the invariant
`attempt + remaining = 6`, performs at most 5 attempts and ends with a
returned body or a raised exception (never by falling through). -/
lemma weatherLoop_total (o : Nat → AttemptOutcome) (j : Nat → Rat) :
    ∀ remaining attempt b s, 1 ≤ remaining → attempt + remaining = 6 →
    (weatherLoop o j remaining attempt b s).attempts ≤ 5 ∧
      ((∃ body, (weatherLoop o j remaining attempt b s).outcome = .ok body) ∨
        (∃ e, (weatherLoop o j remaining attempt b s).outcome = .err e)) := by
  intro remaining
  induction remaining with
  | zero => omega
  | succ r ih =>
    intro attempt b s _ h6
    cases ho : o attempt with
    | success status body =>
      rw [weatherLoop_success o j r attempt b s status body ho]
      by_cases h200 : status = 200
      · rw [if_pos h200]
        exact ⟨by show attempt ≤ 5; omega, .inl ⟨body, rfl⟩⟩
      · rw [if_neg h200]
        by_cases h429 : status = 429
        · rw [if_pos h429]
          exact ⟨by show attempt ≤ 5; omega, .inr ⟨_, rfl⟩⟩
        · rw [if_neg h429]
          exact ⟨by show attempt ≤ 5; omega, .inr ⟨_, rfl⟩⟩
    | requestError m =>
      rw [weatherLoop_reqerr o j r attempt b s m ho]
      by_cases hr : attempt = retries
      · rw [if_pos hr]
        refine ⟨?_, .inr ⟨_, rfl⟩⟩
        show attempt ≤ 5
        simp only [retries] at hr
        omega
      · rw [if_neg hr]
        have hattempt : attempt ≠ 5 := by simpa [retries] using hr
        exact ih (attempt + 1) (b * 2) (s ++ [b + j attempt]) (by omega) (by omega)

/-- C5: `get_weather_data` always terminates after at most 5 HTTP GET
attempts, by then having either returned a body or raised an exception —
no run falls through the retry loop. -/
theorem get_weather_data_bounded (key : String) (lt ln : Rat)
    (o : Nat → AttemptOutcome) (j : Nat → Rat) :
    (get_weather_data key lt ln o j).attempts ≤ 5 ∧
      ((∃ body, (get_weather_data key lt ln o j).outcome = .ok body) ∨
        (∃ e, (get_weather_data key lt ln o j).outcome = .err e)) := by
  unfold get_weather_data
  by_cases hk : key = ""
  · rw [if_pos hk]
    exact ⟨by norm_num, .inr ⟨_, rfl⟩⟩
  · rw [if_neg hk]
    exact weatherLoop_total o j retries 1 1 []
      (by norm_num [retries]) (by norm_num [retries])

/-- C1: with a nonempty api key, `get_weather_data` retries transport
failures: if all 5 attempts meet `httpx.RequestError` it raises
`RuntimeError`, and if the first `k - 1` attempts meet `httpx.RequestError`
and attempt `k` answers with status 200 it returns that response's parsed
JSON body. -/
theorem get_weather_data_retry (o : Nat → AttemptOutcome) (j : Nat → Rat)
    (key : String) (lt ln : Rat) (hk : key ≠ "") :
    ((∀ i, 1 ≤ i → i ≤ 5 → (o i).isRequestError = true) →
        (get_weather_data key lt ln o j).outcome.isRuntimeErr = true) ∧
    (∀ k body, 1 ≤ k → k ≤ 5 →
        (∀ i, 1 ≤ i → i < k → (o i).isRequestError = true) →
        o k = .success 200 body →
        (get_weather_data key lt ln o j).outcome = .ok body) := by
  unfold get_weather_data
  rw [if_neg hk]
  constructor
  · intro hfail
    rw [weatherLoop_reach o j 5 (by norm_num) (by norm_num)
      (fun i hi hik => hfail i hi (by omega))]
    rcases (isRequestError_exists (o 5)).mp
      (hfail 5 (by norm_num) (by norm_num)) with ⟨m, hm⟩
    rw [show (6 : Nat) - 5 = 0 + 1 from rfl,
      weatherLoop_reqerr o j 0 5 _ _ m hm,
      if_pos (show (5 : Nat) = retries from rfl)]
    rfl
  · intro k body h1 h5 hf hk200
    rw [weatherLoop_reach o j k h1 h5 hf,
      show 6 - k = (5 - k) + 1 from by omega,
      weatherLoop_success o j (5 - k) k _ _ 200 body hk200, if_pos rfl]

/-- C1 witness: a run of five transport failures ends in `RuntimeError`,
and a run failing twice then answering 200 returns that body. -/
theorem get_weather_data_retry_at_inputs :
    (get_weather_data "k" 40 74 allFail zeroJitter).outcome.isRuntimeErr = true ∧
    (get_weather_data "k" 40 74 succeedAtThree zeroJitter).outcome =
      .ok (.obj [("a", .num 1)]) :=
  ⟨(get_weather_data_retry allFail zeroJitter "k" 40 74 (by decide)).1
      (fun i _ _ => rfl),
   (get_weather_data_retry succeedAtThree zeroJitter "k" 40 74 (by decide)).2
      3 (.obj [("a", .num 1)]) (by norm_num) (by norm_num)
      (fun i hi hik => by simp [succeedAtThree, hik, AttemptOutcome.isRequestError]) rfl⟩

/-- C2: under an all-failure run the sleep durations are exactly
`backoff + jitter` with backoff 1, 2, 4, 8 (four sleeps, none after the
fifth failed attempt); a run succeeding on attempt `k` performs only the
first `k - 1` of those sleeps; and with jitter drawn from `[0, 0.5]`, the
sleep before retry `k + 1` lies in `[2 ^ k, 2 ^ k + 0.5]`. -/
theorem get_weather_data_backoff (o : Nat → AttemptOutcome) (j : Nat → Rat)
    (key : String) (lt ln : Rat) (hk : key ≠ "")
    (hj : ∀ i, 0 ≤ j i ∧ j i ≤ 1 / 2) :
    ((∀ i, 1 ≤ i → i ≤ 5 → (o i).isRequestError = true) →
        (get_weather_data key lt ln o j).sleeps = expected_sleeps j ∧
          (expected_sleeps j).length = 4) ∧
    (∀ k body, 1 ≤ k → k ≤ 5 →
        (∀ i, 1 ≤ i → i < k → (o i).isRequestError = true) →
        o k = .success 200 body →
        (get_weather_data key lt ln o j).sleeps = (expected_sleeps j).take (k - 1)) ∧
    (∀ k, k < 4 →
        (2 : Rat) ^ k ≤ (expected_sleeps j).getD k 0 ∧
          (expected_sleeps j).getD k 0 ≤ 2 ^ k + 1 / 2) := by
  refine ⟨?_, ?_, ?_⟩
  · intro hfail
    unfold get_weather_data
    rw [if_neg hk, weatherLoop_reach o j 5 (by norm_num) (by norm_num)
      (fun i hi hik => hfail i hi (by omega))]
    rcases (isRequestError_exists (o 5)).mp
      (hfail 5 (by norm_num) (by norm_num)) with ⟨m, hm⟩
    rw [show (6 : Nat) - 5 = 0 + 1 from rfl,
      weatherLoop_reqerr o j 0 5 _ _ m hm,
      if_pos (show (5 : Nat) = retries from rfl)]
    constructor
    · show (expected_sleeps j).take (5 - 1) = expected_sleeps j
      simp [expected_sleeps]
    · simp [expected_sleeps]
  · intro k body h1 h5 hf hk200
    unfold get_weather_data
    rw [if_neg hk, weatherLoop_reach o j k h1 h5 hf,
      show 6 - k = (5 - k) + 1 from by omega,
      weatherLoop_success o j (5 - k) k _ _ 200 body hk200, if_pos rfl]
  · intro k hk4
    have h1 := hj 1
    have h2 := hj 2
    have h3 := hj 3
    have h4 := hj 4
    interval_cases k
    · refine ⟨?_, ?_⟩
      · norm_num [expected_sleeps]
        try linarith [h1.1]
      · norm_num [expected_sleeps]
        try linarith [h1.2]
    · refine ⟨?_, ?_⟩
      · norm_num [expected_sleeps]
        try linarith [h2.1]
      · norm_num [expected_sleeps]
        try linarith [h2.2]
    · refine ⟨?_, ?_⟩
      · norm_num [expected_sleeps]
        try linarith [h3.1]
      · norm_num [expected_sleeps]
        try linarith [h3.2]
    · refine ⟨?_, ?_⟩
      · norm_num [expected_sleeps]
        try linarith [h4.1]
      · norm_num [expected_sleeps]
        try linarith [h4.2]

/-- C2 witness: with zero jitter and an all-failure network the sleeps are
exactly the expected backoff sequence of length 4, and the first sleep is
at least 1 second. -/
theorem get_weather_data_backoff_at_inputs :
    (get_weather_data "k" 40 74 allFail zeroJitter).sleeps = expected_sleeps zeroJitter ∧
      (expected_sleeps zeroJitter).length = 4 ∧
      (2 : Rat) ^ 0 ≤ (expected_sleeps zeroJitter).getD 0 0 :=
  have h := get_weather_data_backoff allFail zeroJitter "k" 40 74 (by decide)
    (fun i => ⟨by norm_num [zeroJitter], by norm_num [zeroJitter]⟩)
  ⟨(h.1 (fun i _ _ => rfl)).1, (h.1 (fun i _ _ => rfl)).2,
    (h.2.2 0 (by norm_num)).1⟩

/-- C9: when the first `k - 1` attempts meet transport errors and attempt
`k` receives a response whose status is not 200, `get_weather_data` raises
`RuntimeError` on that very attempt (the rate-limit message for 429, the
generic one otherwise), with exactly `k` attempts performed and no sleep
after the failing attempt. -/
theorem get_weather_data_non200 (o : Nat → AttemptOutcome) (j : Nat → Rat)
    (key : String) (lt ln : Rat) (hk : key ≠ "") (k status : Nat)
    (body : JValue) (h1 : 1 ≤ k) (h5 : k ≤ 5)
    (hf : ∀ i, 1 ≤ i → i < k → (o i).isRequestError = true)
    (ho : o k = .success status body) (hs : status ≠ 200) :
    get_weather_data key lt ln o j =
      ⟨.err (.runtimeError (if status = 429 then
          "Too many requests - API rate limit reached. Please try again later."
        else
          "Error fetching weather data from the API.")),
        k, (expected_sleeps j).take (k - 1)⟩ := by
  unfold get_weather_data
  rw [if_neg hk, weatherLoop_reach o j k h1 h5 hf,
    show 6 - k = (5 - k) + 1 from by omega,
    weatherLoop_success o j (5 - k) k _ _ status body ho, if_neg hs]
  by_cases h429 : status = 429
  · rw [if_pos h429, if_pos h429]
  · rw [if_neg h429, if_neg h429]

/-- C9 witness: a transport failure followed by a 503 response raises the
generic `RuntimeError` on attempt 2, after a single sleep. -/
theorem get_weather_data_non200_at_inputs :
    get_weather_data "k" 40 74 failThen503 zeroJitter =
      ⟨.err (.runtimeError "Error fetching weather data from the API."),
        2, (expected_sleeps zeroJitter).take 1⟩ :=
  get_weather_data_non200 failThen503 zeroJitter "k" 40 74 (by decide)
    2 503 .null (by norm_num) (by norm_num)
    (fun i hi hik => by simp [failThen503, hik, AttemptOutcome.isRequestError])
    rfl (by decide)

lemma setup_database_mem (db : DB) : "owie_logs" ∈ (setup_database db).tables := by
  unfold setup_database
  split_ifs with h
  · exact h
  · simp

lemma setup_database_rows (db : DB) : (setup_database db).owieRows = db.owieRows := by
  unfold setup_database
  split_ifs <;> rfl

lemma insert_log_weather_data (ex : Extracted) (bp : String) (db : DB)
    (ht : "owie_logs" ∈ db.tables) :
    insert_owie_log ex.date_time bp (log_weather_data ex) db =
      .ok { db with owieRows := db.owieRows ++ [logged_row ex bp] } := by
  unfold insert_owie_log log_weather_data logged_row
  rw [if_pos ht]
  rfl

/-- Inversion of the success path of `log_owie`: a `.json` return means the
settings check passed, the fetch returned a payload, extraction succeeded
with no required value missing, the response dict is the success body, and
the final database is the set-up one with exactly the logged row
appended. -/
lemma log_owie_ok_json (s : Settings) (bp : String)
    (o : Nat → AttemptOutcome) (j : Nat → Rat) (db : DB)
    (out : List (String × JValue)) (db2 : DB)
    (h : log_owie s bp o j db = (.ok (.json out), db2)) :
    ∃ payload ex,
      (get_weather_data s.ow_api_key s.lat s.lon o j).outcome = .ok payload ∧
      extract_current payload = .ok ex ∧
      missingRequired ex = false ∧
      out = [("message", .str "Logged owie details successfully"),
             ("body_part", .str bp), ("temperature", ex.temperature),
             ("pressure", ex.pressure)] ∧
      db2.owieRows = db.owieRows ++ [logged_row ex bp] := by
  unfold log_owie at h
  split at h
  · simp at h
  · split at h
    · simp at h
    · simp at h
    · next payload heq =>
      split at h
      · simp at h
      · next ex heq2 =>
        split at h
        · simp at h
        · next hmiss =>
          split at h
          · simp at h
          · next db2x heq3 =>
            rw [insert_log_weather_data ex bp (setup_database db)
              (setup_database_mem db)] at heq3
            simp only [Except.ok.injEq] at heq3
            simp only [Prod.mk.injEq, Except.ok.injEq,
              HandlerReturn.json.injEq] at h
            refine ⟨payload, ex, heq, heq2, by simpa using hmiss,
              h.1.symm, ?_⟩
            rw [← h.2, ← heq3]
            simp [setup_database_rows]

/-- C3: every successfully completed `POST /owie/\x7bbody_part\x7d`
request appends exactly one row to `owie_logs`, whose `body_part` is the
path parameter and whose remaining columns are the values extracted from
the fetched payload (`date_time` from `current.dt`, etc.). -/
theorem log_owie_inserts_one_row (s : Settings) (bp : String)
    (o : Nat → AttemptOutcome) (j : Nat → Rat) (db : DB)
    (out : List (String × JValue)) (db2 : DB)
    (h : log_owie s bp o j db = (.ok (.json out), db2)) :
    ∃ payload ex,
      (get_weather_data s.ow_api_key s.lat s.lon o j).outcome = .ok payload ∧
      extract_current payload = .ok ex ∧
      db2.owieRows = db.owieRows ++
        [{ weather_id := ex.weather_id, weather_main := ex.weather_main,
           weather_description := ex.weather_description,
           date_time := ex.date_time, body_part := bp,
           humidity := ex.humidity, precipitation := ex.precipitation,
           uv_index := ex.uv_index, temperature := ex.temperature,
           pressure := ex.pressure }] ∧
      db2.owieRows.length = db.owieRows.length + 1 := by
  rcases log_owie_ok_json s bp o j db out db2 h with ⟨p, ex, h1, h2, _, _, h5⟩
  exact ⟨p, ex, h1, h2, h5, by rw [h5]; simp⟩

/-- C3 witness: a successful request for `"knee"` against a fresh database
inserts exactly the row extracted from the full payload. -/
theorem log_owie_inserts_one_row_at_inputs :
    ∃ payload ex,
      (get_weather_data sFine.ow_api_key sFine.lat sFine.lon okFull zeroJitter).outcome = .ok payload ∧
      extract_current payload = .ok ex ∧
      db2Knee.owieRows = dbEmpty.owieRows ++
        [{ weather_id := ex.weather_id, weather_main := ex.weather_main,
           weather_description := ex.weather_description,
           date_time := ex.date_time, body_part := "knee",
           humidity := ex.humidity, precipitation := ex.precipitation,
           uv_index := ex.uv_index, temperature := ex.temperature,
           pressure := ex.pressure }] ∧
      db2Knee.owieRows.length = dbEmpty.owieRows.length + 1 :=
  log_owie_inserts_one_row sFine "knee" okFull zeroJitter dbEmpty
    [("message", .str "Logged owie details successfully"),
     ("body_part", .str "knee"), ("temperature", .num 55),
     ("pressure", .num 1013)] db2Knee rfl

/-- C8: the response body of every successfully handled owie request is
exactly the success dict with the request's body part and the temperature
and pressure of the weather data fetched for this request. -/
theorem log_owie_response_body (s : Settings) (bp : String)
    (o : Nat → AttemptOutcome) (j : Nat → Rat) (db : DB)
    (out : List (String × JValue)) (db2 : DB)
    (h : log_owie s bp o j db = (.ok (.json out), db2)) :
    ∃ payload ex,
      (get_weather_data s.ow_api_key s.lat s.lon o j).outcome = .ok payload ∧
      extract_current payload = .ok ex ∧
      out = [("message", .str "Logged owie details successfully"),
             ("body_part", .str bp), ("temperature", ex.temperature),
             ("pressure", ex.pressure)] := by
  rcases log_owie_ok_json s bp o j db out db2 h with ⟨p, ex, h1, h2, _, h4, _⟩
  exact ⟨p, ex, h1, h2, h4⟩

/-- C8 witness: a successful request for `"elbow"` returns the success
dict carrying temperature 55 and pressure 1013. -/
theorem log_owie_response_body_at_inputs :
    ∃ payload ex,
      (get_weather_data sFine.ow_api_key sFine.lat sFine.lon okFull zeroJitter).outcome = .ok payload ∧
      extract_current payload = .ok ex ∧
      [("message", JValue.str "Logged owie details successfully"),
       ("body_part", JValue.str "elbow"), ("temperature", JValue.num 55),
       ("pressure", JValue.num 1013)] =
        [("message", .str "Logged owie details successfully"),
         ("body_part", .str "elbow"), ("temperature", ex.temperature),
         ("pressure", ex.pressure)] :=
  log_owie_response_body sFine "elbow" okFull zeroJitter dbEmpty
    [("message", .str "Logged owie details successfully"),
     ("body_part", .str "elbow"), ("temperature", .num 55),
     ("pressure", .num 1013)] db2Elbow rfl

/-- C4: when the fetched payload lacks any of the eight required values
(`temp`, `pressure`, `dt`, `humidity`, `uvi`, or `weather[0]`'s `id`,
`main`, `description`), `log_owie` raises `RuntimeError` and the database
is returned unchanged — neither `setup_database` nor `insert_owie_log`
has altered it. -/
theorem log_owie_incomplete_data (s : Settings) (bp : String)
    (o : Nat → AttemptOutcome) (j : Nat → Rat) (db : DB)
    (payload : JValue) (ex : Extracted)
    (hset : ¬(s.ow_api_key = "" ∨ s.db_path = "" ∨ s.lat = 0 ∨ s.lon = 0))
    (hpay : (get_weather_data s.ow_api_key s.lat s.lon o j).outcome = .ok payload)
    (hex : extract_current payload = .ok ex)
    (hmiss : missingRequired ex = true) :
    log_owie s bp o j db =
      (.error (.runtimeError "Incomplete weather data received from the API."), db) := by
  unfold log_owie
  rw [if_neg hset]
  simp [hpay, hex, hmiss]

/-- C4 witness: a payload carrying only a humidity makes `log_owie` raise
`RuntimeError` and leaves the fresh database untouched. -/
theorem log_owie_incomplete_data_at_inputs :
    log_owie sFine "knee" okMissing zeroJitter dbEmpty =
      (.error (.runtimeError "Incomplete weather data received from the API."), dbEmpty) :=
  log_owie_incomplete_data sFine "knee" okMissing zeroJitter dbEmpty
    payloadMissing exMissing (by decide) rfl rfl rfl

/-- C7: `setup_database` is idempotent and touches only the `owie_logs`
table: running it twice equals running it once, running it when the table
already exists changes nothing, it never changes the stored rows, and the
only table it can add is `owie_logs`. -/
theorem setup_database_idempotent (db : DB) :
    setup_database (setup_database db) = setup_database db ∧
    ("owie_logs" ∈ db.tables → setup_database db = db) ∧
    (setup_database db).owieRows = db.owieRows ∧
    (∀ t, t ∈ (setup_database db).tables ↔ (t ∈ db.tables ∨ t = "owie_logs")) := by
  have hfix : ∀ x : DB, "owie_logs" ∈ x.tables → setup_database x = x := by
    intro x hx
    unfold setup_database
    rw [if_pos hx]
  refine ⟨hfix _ (setup_database_mem db), hfix db, setup_database_rows db, ?_⟩
  intro t
  unfold setup_database
  split_ifs with hmem
  · constructor
    · exact fun ht => Or.inl ht
    · rintro (ht | rfl)
      · exact ht
      · exact hmem
  · simp

/-- C7 witness: on a database already holding `owie_logs`, a second setup
equals the first, the first equals the identity, rows are untouched, and
table membership is as described. -/
theorem setup_database_idempotent_at_inputs :
    setup_database (setup_database dbReady) = setup_database dbReady ∧
    setup_database dbReady = dbReady ∧
    (setup_database dbReady).owieRows = dbReady.owieRows ∧
    ("owie_logs" ∈ (setup_database dbReady).tables ↔
      ("owie_logs" ∈ dbReady.tables ∨ "owie_logs" = "owie_logs")) :=
  have h := setup_database_idempotent dbReady
  ⟨h.1, h.2.1 (by decide), h.2.2.1, h.2.2.2 "owie_logs"⟩

/-- C10: a zero latitude or longitude, like an empty api key, is treated
as missing: `validate_settings` raises `ValueError` whose missing-keys
list names the falsy field, and `log_owie` returns the
"Missing required environment variables" body with status 400, leaving
the database unchanged. -/
theorem falsy_settings_rejected (s : Settings)
    (h : s.ow_api_key = "" ∨ s.lat = 0 ∨ s.lon = 0) :
    (∃ m, validate_settings s = .error (.valueError m)) ∧
    (s.ow_api_key = "" → "ow_api_key" ∈ missing_keys s) ∧
    (s.lat = 0 → "lat" ∈ missing_keys s) ∧
    (s.lon = 0 → "lon" ∈ missing_keys s) ∧
    (∀ bp o j db, log_owie s bp o j db =
      (.ok (.jsonStatus
        [("error", .str "Missing required environment variables")] 400), db)) := by
  have hm1 : s.ow_api_key = "" → "ow_api_key" ∈ missing_keys s := by
    intro hh
    simp [missing_keys, hh]
  have hm2 : s.lat = 0 → "lat" ∈ missing_keys s := by
    intro hh
    simp [missing_keys, hh]
  have hm3 : s.lon = 0 → "lon" ∈ missing_keys s := by
    intro hh
    simp [missing_keys, hh]
  have hne : missing_keys s ≠ [] := by
    rcases h with hh | hh | hh
    · exact List.ne_nil_of_mem (hm1 hh)
    · exact List.ne_nil_of_mem (hm2 hh)
    · exact List.ne_nil_of_mem (hm3 hh)
  refine ⟨?_, hm1, hm2, hm3, ?_⟩
  · unfold validate_settings
    rw [if_neg hne]
    exact ⟨_, rfl⟩
  · intro bp o j db
    unfold log_owie
    rw [if_pos ?_]
    rcases h with hh | hh | hh
    · exact Or.inl hh
    · exact Or.inr (Or.inr (Or.inl hh))
    · exact Or.inr (Or.inr (Or.inr hh))

/-- C10 witness: latitude exactly 0.0 makes `validate_settings` raise a
`ValueError` naming `lat`, and makes `log_owie` answer 400 without
touching the database. -/
theorem falsy_settings_rejected_at_inputs :
    (∃ m, validate_settings sLatZero = .error (.valueError m)) ∧
    "lat" ∈ missing_keys sLatZero ∧
    log_owie sLatZero "knee" okFull zeroJitter dbEmpty =
      (.ok (.jsonStatus
        [("error", .str "Missing required environment variables")] 400), dbEmpty) :=
  have h := falsy_settings_rejected sLatZero (Or.inr (Or.inl (by decide)))
  ⟨h.1, h.2.2.1 (by decide), h.2.2.2.2 "knee" okFull zeroJitter dbEmpty⟩

/-- C6 counterexample: the app does not expose exactly one route — two
decorators register handlers on it. -/
theorem app_routes_not_single : ¬ app_routes.length = 1 := by decide

/-- C6 (amended): the service registers exactly two HTTP routes,
`GET /` (the trivial home route) and `POST /owie/\x7bbody_part\x7d`
(the single business handler). -/
theorem app_routes_two :
    app_routes.length = 2 ∧
    app_routes = [{ method := "GET", path := "/" },
      { method := "POST", path := "/owie/\x7bbody_part\x7d" }] :=
  ⟨rfl, rfl⟩
